import Mathlib

/-!
# Verification of the WhatsApp chatbot message pipeline

Shallow embedding of the core message-handling pipeline of the repository:

* `SheetsService` (`openai.service.ts`, second revision): the spreadsheet-backed
  history store — `hasMessage`, `appendMessage`, `getRecentConversation`,
  `getSetting`, `setSetting`, `getAllSettings`, `resetConversation`.
* `OpenaiService.generateOpenAIResponse`: the completion client.
* `WhatsappService.sendMessage` and `WhatsappService.handleUserMessage`:
  the sender and the orchestrator.

Modelling conventions:

* The `messages` sheet is a list of `Row`s (cells of one spreadsheet row);
  missing cells are the empty string.  Timestamp cells hold
  `new Date().toISOString()` and are only ever consumed through `Date.parse`,
  so a message row stores the parsed instant directly as a `Nat`
  (milliseconds since epoch).  Reset markers travel through the string-valued
  `settings` table, so their parsing (`Date.parse` of a stored string) is kept
  explicit as `dateParse`; a string that does not parse behaves exactly like
  the instant `0` at both use sites (`!resetTime` truthiness and the
  `> resetTime` comparison), so parse failure is mapped to `0`.
* Underlying spreadsheet I/O failures (rejected Google API calls that the
  service catches itself) are injected as explicit boolean oracles
  (`ioFail` etc.); `cfg` models the presence of a configured Sheets client.
* Awaited collaborator calls inside `handleUserMessage` that could reject
  without being caught by the collaborator are injected as `raise*` oracles;
  the orchestrator's `try/catch` is translated to `Except`, the error branch
  carrying the partial state and effects at the point of the throw.
* Outbound effects (completion requests, WhatsApp send attempts) are recorded
  in an explicit `Effects` value.
-/

namespace Chatbot

/-! ## JS string primitives used by the code -/

/-- Is `c` an ASCII decimal digit (`\d`)? -/
def charDigit (c : Char) : Bool :=
  '0' ≤ c && c ≤ '9'

/-- JS `s.replace(/\D/g, '')`: keep only ASCII decimal digits. -/
def digitsOnly (s : String) : String :=
  ⟨s.data.filter charDigit⟩

/-- JS `s.startsWith(pre)`.  (Defined over the character lists so that it
evaluates by kernel reduction.) -/
def strStartsWith (s pre : String) : Bool :=
  pre.data.isPrefixOf s.data

/-- JS `s.trim()`: strip leading and trailing whitespace. -/
def strTrim (s : String) : String :=
  ⟨((s.data.dropWhile Char.isWhitespace).reverse.dropWhile Char.isWhitespace).reverse⟩

/-- JS `arr.join(sep)`. -/
def joinSep (sep : String) : List String → String
  | [] => ""
  | [x] => x
  | x :: xs => x ++ sep ++ joinSep sep xs

/-- JS `String.prototype.replace` with a string pattern replaces only the first
occurrence.  Recursion over the character list of the subject. -/
def listReplaceFirst : List Char → List Char → List Char → List Char
  | [], pat, rep => if pat.isEmpty then rep else []
  | c :: rest, pat, rep =>
    if pat.isPrefixOf (c :: rest) then rep ++ (c :: rest).drop pat.length
    else c :: listReplaceFirst rest pat rep

/-- JS `s.replace(pat, rep)` (first occurrence only). -/
def jsReplaceFirst (s pat rep : String) : String :=
  ⟨listReplaceFirst s.data pat.data rep.data⟩

/-- JS `s.replace(/_/g, ' ')`: every underscore becomes a space. -/
def underscoreToSpace (s : String) : String :=
  ⟨s.data.map (fun c => if c = '_' then ' ' else c)⟩

/-- Numeric value of a digit string. -/
def natOfChars (l : List Char) : Nat :=
  l.foldl (fun n c => n * 10 + (c.toNat - '0'.toNat)) 0

/-- Models `Date.parse` of a stored timestamp string, as a natural instant.
Instants are modelled by their decimal representation; a string that does not
parse is mapped to `0`, which is observationally identical to `NaN` at both
consuming sites (see module docstring). -/
def dateParse (s : String) : Nat :=
  if s.data ≠ [] ∧ s.data.all charDigit then natOfChars s.data else 0

/-! ## Data model: the spreadsheet-backed store -/

/-- One row of the `messages` tab: `[timestamp, wa_id, role, content, msg_id]`.
The timestamp cell is modelled by the instant it parses to. -/
structure Row where
  timestamp : Nat
  waId : String
  role : String
  content : String
  msgId : String
deriving DecidableEq

/-- The store: the `messages` tab and the `settings` tab (`[key, value]` rows),
in sheet order.  (The `facts` tab is never touched by the pipeline.) -/
structure SheetsState where
  messages : List Row
  settings : List (String × String)
deriving DecidableEq

/-- A history entry as returned by `getRecentConversation` and consumed by the
completion client: `{ role, content }`. -/
structure HistEntry where
  role : String
  content : String
deriving DecidableEq

/-! ## SheetsService operations -/

/-- Embeds `hasMessage(msgId)`: `if (!msgId) return false`, then a read of
`messages!E2:E` and `values.some(row => (row[0] || '') === msgId)`.
`cfg` is client presence, `ioFail` an underlying read failure
(caught in the service, result `false`). -/
def hasMessage (cfg ioFail : Bool) (st : SheetsState) (msgId : String) : Bool :=
  if msgId = "" then false
  else if !cfg then false
  else if ioFail then false
  else st.messages.any (fun r => r.msgId == msgId)

/-- Embeds `appendMessage(waId, role, content, msgId?)`: appends one row
`[now.toISOString(), waId, role, content, msgId || '']`; a write failure is
caught and leaves the sheet unchanged. -/
def appendMessage (cfg ioFail : Bool) (st : SheetsState) (now : Nat)
    (waId role content : String) (msgId : Option String) : SheetsState :=
  if !cfg then st
  else if ioFail then st
  else { st with messages := st.messages ++ [⟨now, waId, role, content, msgId.getD ""⟩] }

/-- First `settings` row whose key cell matches, as in the `for` loop of
`getSetting`. -/
def lookupRows : List (String × String) → String → Option String
  | [], _ => none
  | (k, v) :: rest, key => if k = key then some v else lookupRows rest key

/-- Embeds `getSetting(key)`: scan `settings!A2:B` for the first row with that key. -/
def getSetting (cfg ioFail : Bool) (st : SheetsState) (key : String) : Option String :=
  if !cfg then none
  else if ioFail then none
  else lookupRows st.settings key

/-- Row update of `setSetting`: overwrite the first row holding `key`
(`rowIndex` found by the scan), otherwise append a fresh `[key, value]` row. -/
def setSettingRows : List (String × String) → String → String → List (String × String)
  | [], key, value => [(key, value)]
  | (k, v) :: rest, key, value =>
    if k = key then (key, value) :: rest
    else (k, v) :: setSettingRows rest key value

/-- Embeds `setSetting(key, value)`: last-write-wins upsert; any failure inside the
`try` leaves the sheet unchanged. -/
def setSetting (cfg ioFail : Bool) (st : SheetsState) (key value : String) : SheetsState :=
  if !cfg then st
  else if ioFail then st
  else { st with settings := setSettingRows st.settings key value }

/-- Embeds `resetConversation(waId)`: `setSetting('reset:' + waId, now.toISOString())`.
`nowIso` is the serialized current instant. -/
def resetConversation (cfg ioFail : Bool) (st : SheetsState) (waId nowIso : String) : SheetsState :=
  setSetting cfg ioFail st ("reset:" ++ waId) nowIso

/-- JS object property write `map[k] = v`: an existing key keeps its insertion
position and gets the new value, a new key is appended. -/
def objInsert (m : List (String × String)) (key value : String) : List (String × String) :=
  if m.any (fun p => p.1 == key) then
    m.map (fun p => if p.1 = key then (key, value) else p)
  else m ++ [(key, value)]

/-- Embeds `getAllSettings()`: fold the `settings` rows into an object, skipping rows
with an empty key cell; `Object.entries` later observes insertion order. -/
def getAllSettings (cfg ioFail : Bool) (st : SheetsState) : List (String × String) :=
  if !cfg then []
  else if ioFail then []
  else st.settings.foldl (fun m kv => if kv.1 = "" then m else objInsert m kv.1 kv.2) []

/-- The reset cutoff read at the top of `getRecentConversation`:
`resetAt ? Date.parse(resetAt) : 0` over `getSetting('reset:' + waId)`.
(`dateParse "" = 0`, matching the truthiness test on `resetAt`.) -/
def resetTimeOf (ioGetSetting : Bool) (st : SheetsState) (waId : String) : Nat :=
  match getSetting true ioGetSetting st ("reset:" ++ waId) with
  | some s => dateParse s
  | none => 0

/-- The row filter of `getRecentConversation`:
`r[1] === waId && (!resetTime || Date.parse(r[0]) > resetTime)`. -/
def qualifies (resetTime : Nat) (waId : String) (r : Row) : Bool :=
  r.waId == waId && (resetTime == 0 || decide (resetTime < r.timestamp))

/-- JS `arr.slice(-limit)` for a natural `limit`: the last `limit` elements —
except that `-0 === 0`, so `limit = 0` yields the whole array. -/
def sliceNeg (l : List α) (limit : Nat) : List α :=
  if limit = 0 then l else l.drop (l.length - limit)

/-- The rows selected by `getRecentConversation` before projection:
filter by user and cutoff, then `.slice(-limit)`. -/
def recentRows (ioGetSetting : Bool) (st : SheetsState) (waId : String) (limit : Nat) : List Row :=
  sliceNeg (st.messages.filter (qualifies (resetTimeOf ioGetSetting st waId) waId)) limit

/-- Projection `r => ({ role: r[2] || 'user', content: r[3] || '' })`. -/
def toHistEntry (r : Row) : HistEntry :=
  { role := if r.role = "" then "user" else r.role, content := r.content }

/-- Embeds `getRecentConversation(waId, limit)`: `[]` when unconfigured or on a failed
read, otherwise the filtered, sliced, projected rows. -/
def getRecentConversation (cfg ioGetSetting ioFail : Bool) (st : SheetsState)
    (waId : String) (limit : Nat) : List HistEntry :=
  if !cfg then []
  else if ioFail then []
  else (recentRows ioGetSetting st waId limit).map toHistEntry

/-! ## OpenaiService.generateOpenAIResponse -/

/-- The `message` object of a completion choice; `content` is nullable. -/
structure CompletionMessage where
  content : Option String
deriving DecidableEq

/-- One element of `completion.choices`; the code reads it with
`choices[0].message?.content`, so `message` may be absent. -/
structure Choice where
  message : Option CompletionMessage
deriving DecidableEq

/-- The outcome of the awaited `openai.chat.completions.create` call:
either the promise rejects (network error, quota, SDK parse error, ...) or a
completion object with some list of choices arrives. -/
inductive OpenAIOutcome where
  | throws
  | returns (choices : List Choice)
deriving DecidableEq

/-- The string returned by the `catch` branches of the pipeline. -/
def fallbackText : String := "Sorry, I could not process your request."

/-- The messages array built before the API call: fixed system instruction,
then the (possibly absent, possibly empty → skipped) history, then the
prompt as a `user` message. -/
def requestMessages (prompt : String) (history : Option (List HistEntry)) : List HistEntry :=
  [⟨"system", "You are a helpful WhatsApp assistant. Keep replies short and clear."⟩]
    ++ (match history with
        | some h => if h.length ≠ 0 then h else []
        | none => [])
    ++ [⟨"user", prompt⟩]

/-- Embeds `generateOpenAIResponse(prompt, history?)`.  A rejected call is caught and
yields `fallbackText`; `choices[0]` on an empty list throws a `TypeError`
inside the `try`, also caught; otherwise the result is
`choices[0].message?.content || 'No response'`. -/
def generateOpenAIResponse (outcome : OpenAIOutcome) (prompt : String)
    (history : Option (List HistEntry)) : String :=
  match outcome with
  | .throws => fallbackText
  | .returns [] => fallbackText
  | .returns (c :: _) =>
    match c.message with
    | none => "No response"
    | some m =>
      match m.content with
      | none => "No response"
      | some s => if s = "" then "No response" else s

/-! ## WhatsappService.sendMessage -/

/-- The three WhatsApp credentials as read from the environment
(`process.env.X?.trim()` before the truthiness test). -/
structure SendEnv where
  apiKey : Option String
  apiVersion : Option String
  phoneId : Option String
deriving DecidableEq

/-- JS `!value` after the optional trim: absent, or blank after trimming. -/
def envMissing : Option String → Bool
  | none => true
  | some s => strTrim s = ""

/-- Observable outcome of one `sendMessage` invocation: skipped for missing
env vars, skipped for an empty normalized recipient, or an HTTP attempt to
`toDigits` with the given body (`ok = false` means the request failed and
was caught and classified in the `catch`). -/
inductive SendResult where
  | skippedEnv
  | skippedInvalid
  | attempted (toDigits : String) (body : String) (ok : Bool)
deriving DecidableEq

/-- Embeds `sendMessage(to, message)`: env check, digits-only normalization of the
recipient, then the axios POST whose failure is absorbed.  Total — it never
throws.  (The source names the first parameter `to`, a Lean keyword.) -/
def sendMessage (env : SendEnv) (ioOk : Bool) (recipient message : String) : SendResult :=
  if envMissing env.apiKey || envMissing env.apiVersion || envMissing env.phoneId then
    .skippedEnv
  else
    let toDigits := digitsOnly recipient
    if toDigits = "" then .skippedInvalid
    else .attempted toDigits message ioOk

/-! ## WhatsappService.handleUserMessage -/

/-- A completion request issued by the pipeline. -/
structure GenCall where
  prompt : String
  history : List HistEntry
deriving DecidableEq

/-- One invocation of `sendMessage` by the orchestrator, with its outcome.
(`sendTo` is the `to` argument of the call.) -/
structure SendCall where
  sendTo : String
  body : String
  result : SendResult
deriving DecidableEq

/-- Externally observable effects of one `handleUserMessage` run.
`caught` records whether the `catch` branch of the orchestrator ran
(where the error is logged). -/
structure Effects where
  gens : List GenCall
  sends : List SendCall
  caught : Bool
deriving DecidableEq

/-- Environment of one `handleUserMessage` run: Sheets client presence per-call
caught I/O failures (`io*`), hypothetical uncaught rejections of the awaited
collaborator calls (`raise*`), the completion outcome, and the sender
configuration. -/
structure OrchEnv where
  cfg : Bool
  ioHasMessage : Bool
  ioAppendUser : Bool
  ioGetSettingReset : Bool
  ioHistory : Bool
  ioAllSettings : Bool
  ioAppendReply : Bool
  raiseAppendUser : Bool
  raiseHistory : Bool
  raiseSettings : Bool
  raiseGenerate : Bool
  raiseAppendReply : Bool
  openai : OpenAIOutcome
  sendEnv : SendEnv
  sendIoOk : Bool
deriving DecidableEq

/-- JS truthiness of the optional `msgId` argument. -/
def msgIdTruthy : Option String → Bool
  | none => false
  | some s => s ≠ ""

/-- Lines 127–129: `Object.entries(settings).filter(([k]) =>
k.startsWith('biz:')).map(([k, v]) => k.replace('biz:','').replace(/_/g,' ')
+ ': ' + v)`. -/
def bizEntries (settings : List (String × String)) : List String :=
  (settings.filter (fun kv => strStartsWith kv.1 "biz:")).map
    (fun kv => underscoreToSpace (jsReplaceFirst kv.1 "biz:" "") ++ ": " ++ kv.2)

/-- Lines 130–132: the "Business facts — ..." line, or `''`. -/
def bizContext (settings : List (String × String)) : String :=
  if (bizEntries settings).length ≠ 0 then
    "Business facts — " ++ joinSep " | " (bizEntries settings)
  else ""

/-- Line 134: prepend the business context when truthy, blank line separator. -/
def assemblePrompt (settings : List (String × String)) (message : String) : String :=
  if bizContext settings ≠ "" then bizContext settings ++ "\n\nUser: " ++ message
  else message

/-- The `try` body of `handleUserMessage`: dedup check, persist inbound,
fetch history, assemble context, generate, persist reply, deliver.
An injected `raise*` rejection throws (`Except.error`), carrying the state
and effects accumulated so far. -/
def handleCore (env : OrchEnv) (st : SheetsState) (now : Nat)
    (number message : String) (msgId : Option String) :
    Except (SheetsState × Effects) (SheetsState × Effects) :=
  if msgIdTruthy msgId && hasMessage env.cfg env.ioHasMessage st (msgId.getD "") then
    .ok (st, ⟨[], [], false⟩)
  else if env.raiseAppendUser then .error (st, ⟨[], [], false⟩)
  else
    let st1 := appendMessage env.cfg env.ioAppendUser st now number "user" message msgId
    if env.raiseHistory then .error (st1, ⟨[], [], false⟩)
    else
      let history := getRecentConversation env.cfg env.ioGetSettingReset env.ioHistory st1 number 12
      if env.raiseSettings then .error (st1, ⟨[], [], false⟩)
      else
        let settings := getAllSettings env.cfg env.ioAllSettings st1
        let prompt := assemblePrompt settings message
        if env.raiseGenerate then .error (st1, ⟨[], [], false⟩)
        else
          let reply := generateOpenAIResponse env.openai prompt (some history)
          if env.raiseAppendReply then .error (st1, ⟨[⟨prompt, history⟩], [], false⟩)
          else
            let st2 := appendMessage env.cfg env.ioAppendReply st1 now number "assistant" reply none
            .ok (st2, ⟨[⟨prompt, history⟩], [⟨number, reply, sendMessage env.sendEnv env.sendIoOk number reply⟩], false⟩)

/-- Embeds `handleUserMessage(number, message, msgId?)`: the `try` body, with the
`catch` logging the error and making a best-effort `sendMessage(number,
'Sorry, I could not process your request.')`.  Total — nothing escapes to
the webhook handler. -/
def handleUserMessage (env : OrchEnv) (st : SheetsState) (now : Nat)
    (number message : String) (msgId : Option String) : SheetsState × Effects :=
  match handleCore env st now number message msgId with
  | .ok r => r
  | .error (st', eff) =>
    (st', ⟨eff.gens,
           eff.sends ++ [⟨number, fallbackText, sendMessage env.sendEnv env.sendIoOk number fallbackText⟩],
           true⟩)

/-! ## Helper lemmas -/

theorem sliceNeg_sublist (l : List α) (n : Nat) : (sliceNeg l n).Sublist l := by
  unfold sliceNeg
  split
  · exact List.Sublist.refl l
  · exact List.drop_sublist _ l

theorem mem_sliceNeg {l : List α} {n : Nat} {x : α} (h : x ∈ sliceNeg l n) : x ∈ l :=
  (sliceNeg_sublist l n).subset h

theorem sliceNeg_length_le (l : List α) {n : Nat} (hn : 1 ≤ n) : (sliceNeg l n).length ≤ n := by
  unfold sliceNeg
  rw [if_neg (by omega), List.length_drop]
  omega

theorem sliceNeg_nil (n : Nat) : sliceNeg ([] : List α) n = [] := by
  unfold sliceNeg
  split <;> simp

theorem lookupRows_setSettingRows (rows : List (String × String)) (key value : String) :
    lookupRows (setSettingRows rows key value) key = some value := by
  induction rows with
  | nil => simp [setSettingRows, lookupRows]
  | cons kv rest ih =>
    obtain ⟨k, v⟩ := kv
    by_cases hk : k = key
    · subst hk
      simp [setSettingRows, lookupRows]
    · simp [setSettingRows, lookupRows, hk, ih]

theorem qualifies_waId {t : Nat} {w : String} {r : Row} (h : qualifies t w r = true) :
    r.waId = w := by
  unfold qualifies at h
  rw [Bool.and_eq_true] at h
  exact eq_of_beq h.1

theorem qualifies_timestamp {t : Nat} {w : String} {r : Row} (h : qualifies t w r = true)
    (ht : t ≠ 0) : t < r.timestamp := by
  unfold qualifies at h
  rw [Bool.and_eq_true, Bool.or_eq_true] at h
  rcases h.2 with h2 | h2
  · exact absurd (eq_of_beq h2) ht
  · exact of_decide_eq_true h2

/-! ## Claim theorems -/

/-- C2: the prompt is assembled from the `biz:`-prefixed settings — with
settings `biz:name = "Acme"`, `biz:hours = "9to5"` and message `"Hi"` it is
exactly `"Business facts — name: Acme | hours: 9to5\n\nUser: Hi"` (each key
humanized by dropping the `biz:` prefix and turning underscores into spaces,
entries joined with `" | "`); when no setting key starts with `biz:`, the
prompt is the raw message unchanged. -/
theorem context_assembly_spec :
    assemblePrompt [("biz:name", "Acme"), ("biz:hours", "9to5")] "Hi"
        = "Business facts — name: Acme | hours: 9to5\n\nUser: Hi"
      ∧ ∀ (settings : List (String × String)) (message : String),
          (∀ kv ∈ settings, strStartsWith kv.1 "biz:" = false) →
          assemblePrompt settings message = message := by
  constructor
  · decide
  · intro settings message h
    have hfil : settings.filter (fun kv => strStartsWith kv.1 "biz:") = [] := by
      rw [List.filter_eq_nil_iff]
      intro kv hkv
      simp [h kv hkv]
    unfold assemblePrompt bizContext bizEntries
    rw [hfil]
    simp

/-- C2 witness: the no-`biz:`-settings branch at a concrete input. -/
theorem context_assembly_spec_witness :
    assemblePrompt [("greeting", "x")] "Hello" = "Hello" :=
  context_assembly_spec.2 [("greeting", "x")] "Hello" (by decide)

/-- C5 counterexample: a completion that arrives with a `message` whose
`content` is null is answered with `"No response"`, not with the fixed
fallback string — `choices[0].message?.content || 'No response'`. -/
theorem generate_nullContent_counterexample :
    generateOpenAIResponse (.returns [⟨some ⟨none⟩⟩]) "Hi" none = "No response"
      ∧ generateOpenAIResponse (.returns [⟨some ⟨none⟩⟩]) "Hi" none ≠ fallbackText := by
  decide

/-- C5 (amended): `generateOpenAIResponse` never raises past its boundary and
always returns non-empty text; a rejected API call (network error, quota,
SDK parse failure) and an empty `choices` array both yield the fixed fallback
string; a completion whose message content is missing or empty yields the
non-empty string `"No response"` instead. -/
theorem generate_fallback_guarantee (outcome : OpenAIOutcome) (prompt : String)
    (history : Option (List HistEntry)) :
    generateOpenAIResponse outcome prompt history ≠ ""
      ∧ (outcome = .throws → generateOpenAIResponse outcome prompt history = fallbackText)
      ∧ (outcome = .returns [] → generateOpenAIResponse outcome prompt history = fallbackText) := by
  have hfb : fallbackText ≠ "" := by decide
  have hnr : ("No response" : String) ≠ "" := by decide
  refine ⟨?_, ?_, ?_⟩
  · cases outcome with
    | throws => exact hfb
    | returns choices =>
      cases choices with
      | nil => exact hfb
      | cons c rest =>
        cases hm : c.message with
        | none => simp [generateOpenAIResponse, hm]
        | some m =>
          cases hc : m.content with
          | none => simp [generateOpenAIResponse, hm, hc]
          | some s =>
            by_cases hs : s = "" <;> simp [generateOpenAIResponse, hm, hc, hs, hnr]
  · intro h
    subst h
    rfl
  · intro h
    subst h
    rfl

/-- C5 witness: a rejected call at a concrete input returns the fallback. -/
theorem generate_fallback_guarantee_witness :
    generateOpenAIResponse .throws "Hi" none = fallbackText :=
  (generate_fallback_guarantee .throws "Hi" none).2.1 rfl

/-- C7: in every state reachable by the pipeline (rows with a non-empty
`msg_id` cell are `user` rows), `hasMessage` is true exactly when a
`user`-role row with that exact message id exists; an empty message id always
yields `false`, whatever the store holds. -/
theorem hasTurn_spec (st : SheetsState) (m : String)
    (hinv : ∀ r ∈ st.messages, r.msgId ≠ "" → r.role = "user") :
    (hasMessage true false st m = true
        ↔ m ≠ "" ∧ ∃ r ∈ st.messages, r.role = "user" ∧ r.msgId = m)
      ∧ ∀ (cfg io : Bool) (st2 : SheetsState), hasMessage cfg io st2 "" = false := by
  constructor
  · by_cases hm : m = ""
    · subst hm
      simp [hasMessage]
    · constructor
      · intro htrue
        have h1 : st.messages.any (fun r => r.msgId == m) = true := by
          simpa [hasMessage, hm] using htrue
        rw [List.any_eq_true] at h1
        obtain ⟨r, hr, heq⟩ := h1
        have heq' : r.msgId = m := by simpa using heq
        exact ⟨hm, r, hr, hinv r hr (by rw [heq']; exact hm), heq'⟩
      · rintro ⟨-, r, hr, -, heq⟩
        have h1 : st.messages.any (fun r => r.msgId == m) = true := by
          rw [List.any_eq_true]
          exact ⟨r, hr, by simp [heq]⟩
        simpa [hasMessage, hm] using h1
  · intro cfg io st2
    simp [hasMessage]

/-- C7 witness: a store holding an assistant row with an empty stored id and a
user row with id `"m1"`. -/
theorem hasTurn_spec_witness :
    hasMessage true false ⟨[⟨1, "u", "assistant", "yo", ""⟩, ⟨2, "u", "user", "hi", "m1"⟩], []⟩ "m1" = true
      ∧ hasMessage true false ⟨[⟨1, "u", "assistant", "yo", ""⟩, ⟨2, "u", "user", "hi", "m1"⟩], []⟩ "" = false :=
  ⟨(hasTurn_spec ⟨[⟨1, "u", "assistant", "yo", ""⟩, ⟨2, "u", "user", "hi", "m1"⟩], []⟩ "m1"
      (by decide)).1.mpr (by decide),
   (hasTurn_spec ⟨[⟨1, "u", "assistant", "yo", ""⟩, ⟨2, "u", "user", "hi", "m1"⟩], []⟩ ""
      (by decide)).2 true false _⟩

/-- C8: with delivery credentials present, `sendMessage` normalizes the
recipient to digits only and targets that normalized form; when normalization
yields the empty string it skips the delivery attempt (and never raises —
the function is total).  Includes the spec's concrete normalization facts. -/
theorem send_normalizes (env : SendEnv) (ioOk : Bool) (recipient text : String)
    (henv : envMissing env.apiKey = false ∧ envMissing env.apiVersion = false
      ∧ envMissing env.phoneId = false) :
    (digitsOnly recipient ≠ "" →
        sendMessage env ioOk recipient text = .attempted (digitsOnly recipient) text ioOk)
      ∧ (digitsOnly recipient = "" → sendMessage env ioOk recipient text = .skippedInvalid)
      ∧ digitsOnly "+1 (555) 123-4567" = "15551234567"
      ∧ digitsOnly "not-a-number" = "" := by
  obtain ⟨h1, h2, h3⟩ := henv
  refine ⟨?_, ?_, by decide, by decide⟩
  · intro hd
    unfold sendMessage
    rw [h1, h2, h3]
    simp [hd]
  · intro hd
    unfold sendMessage
    rw [h1, h2, h3]
    simp [hd]

/-- C8 witness: both branches at the spec's concrete inputs. -/
theorem send_normalizes_witness :
    sendMessage ⟨some "k", some "v21.0", some "123"⟩ true "+1 (555) 123-4567" "hi"
        = .attempted "15551234567" "hi" true
      ∧ sendMessage ⟨some "k", some "v21.0", some "123"⟩ true "not-a-number" "hi"
        = .skippedInvalid := by
  have h := send_normalizes ⟨some "k", some "v21.0", some "123"⟩ true "+1 (555) 123-4567" "hi"
    (by refine ⟨?_, ?_, ?_⟩ <;> decide)
  have h2 := send_normalizes ⟨some "k", some "v21.0", some "123"⟩ true "not-a-number" "hi"
    (by refine ⟨?_, ?_, ?_⟩ <;> decide)
  refine ⟨?_, h2.2.1 (by decide)⟩
  have := h.1 (by decide)
  simpa [show digitsOnly "+1 (555) 123-4567" = "15551234567" from by decide] using this

/-- C9: with an underlying I/O failure injected, every store operation is
caught at its own boundary and degrades to its safe default — `false`, the
unchanged sheet, the empty sequence, the absent value, or the empty mapping —
and nothing is raised to the pipeline (all are total functions). -/
theorem store_failures_safe (st : SheetsState) (cfg ioGS fail : Bool)
    (m key value waId role content nowIso : String) (now limit : Nat)
    (msgId : Option String) (hf : fail = true) :
    hasMessage cfg fail st m = false
      ∧ appendMessage cfg fail st now waId role content msgId = st
      ∧ getRecentConversation cfg ioGS fail st waId limit = []
      ∧ getSetting cfg fail st key = none
      ∧ getAllSettings cfg fail st = []
      ∧ setSetting cfg fail st key value = st
      ∧ resetConversation cfg fail st waId nowIso = st := by
  subst hf
  cases cfg <;>
    simp [hasMessage, appendMessage, getRecentConversation, getSetting, getAllSettings,
      setSetting, resetConversation]

/-- C9 witness: one failing run of every operation on a concrete store. -/
theorem store_failures_safe_witness :
    hasMessage true true ⟨[⟨1, "u", "user", "hi", "m1"⟩], [("k", "v")]⟩ "m1" = false
      ∧ appendMessage true true ⟨[⟨1, "u", "user", "hi", "m1"⟩], [("k", "v")]⟩ 2 "u" "user" "x" none
          = ⟨[⟨1, "u", "user", "hi", "m1"⟩], [("k", "v")]⟩
      ∧ getRecentConversation true false true ⟨[⟨1, "u", "user", "hi", "m1"⟩], [("k", "v")]⟩ "u" 12 = []
      ∧ getSetting true true ⟨[⟨1, "u", "user", "hi", "m1"⟩], [("k", "v")]⟩ "k" = none
      ∧ getAllSettings true true ⟨[⟨1, "u", "user", "hi", "m1"⟩], [("k", "v")]⟩ = []
      ∧ setSetting true true ⟨[⟨1, "u", "user", "hi", "m1"⟩], [("k", "v")]⟩ "k" "w"
          = ⟨[⟨1, "u", "user", "hi", "m1"⟩], [("k", "v")]⟩
      ∧ resetConversation true true ⟨[⟨1, "u", "user", "hi", "m1"⟩], [("k", "v")]⟩ "u" "9"
          = ⟨[⟨1, "u", "user", "hi", "m1"⟩], [("k", "v")]⟩ :=
  store_failures_safe ⟨[⟨1, "u", "user", "hi", "m1"⟩], [("k", "v")]⟩ true false true
    "m1" "k" "w" "u" "user" "x" "9" 2 12 none rfl

/-- C1: with a working store, an inbound `(number, message, msgId)` whose
non-empty `msgId` already has a persisted `user` row terminates at the dedup
check: the store is unchanged, no completion request is issued, no send is
attempted, and the catch branch does not run. -/
theorem dedup_no_side_effects (env : OrchEnv) (st : SheetsState) (now : Nat)
    (number message m : String)
    (hcfg : env.cfg = true) (hio : env.ioHasMessage = false) (hm : m ≠ "")
    (hrow : ∃ r ∈ st.messages, r.role = "user" ∧ r.msgId = m) :
    handleUserMessage env st now number message (some m) = (st, ⟨[], [], false⟩) := by
  have hhas : hasMessage env.cfg env.ioHasMessage st m = true := by
    rw [hcfg, hio]
    have h1 : st.messages.any (fun r => r.msgId == m) = true := by
      rw [List.any_eq_true]
      obtain ⟨r, hr, -, hrid⟩ := hrow
      exact ⟨r, hr, by simp [hrid]⟩
    simpa [hasMessage, hm] using h1
  unfold handleUserMessage handleCore
  simp [msgIdTruthy, hm, hhas]

/-- C1 witness: a concrete duplicate delivery of `wamid.1`. -/
theorem dedup_no_side_effects_witness :
    handleUserMessage
        ⟨true, false, false, false, false, false, false, false, false, false, false, false,
          .throws, ⟨none, none, none⟩, false⟩
        ⟨[⟨1, "55501", "user", "hi", "wamid.1"⟩], []⟩ 2 "55501" "hi" (some "wamid.1")
      = (⟨[⟨1, "55501", "user", "hi", "wamid.1"⟩], []⟩, ⟨[], [], false⟩) :=
  dedup_no_side_effects _ _ 2 "55501" "hi" "wamid.1" rfl rfl (by decide)
    ⟨⟨1, "55501", "user", "hi", "wamid.1"⟩, by decide, by decide, by decide⟩

/-- C3: once `resetConversation(u)` has written a marker serializing an
instant `T > 0`, every later read whose settings still hold that marker —
any number of message appends later, any limit — returns only rows of `u`
with timestamp strictly greater than `T`. -/
theorem reset_monotonicity (st st2 : SheetsState) (waId nowIso : String) (T limit : Nat)
    (hparse : dateParse nowIso = T) (hpos : 0 < T)
    (hsettings : st2.settings = (resetConversation true false st waId nowIso).settings) :
    ∀ r ∈ recentRows false st2 waId limit, T < r.timestamp := by
  intro r hr
  have hget : getSetting true false st2 ("reset:" ++ waId) = some nowIso := by
    unfold getSetting
    rw [hsettings]
    unfold resetConversation setSetting
    simpa using lookupRows_setSettingRows st.settings ("reset:" ++ waId) nowIso
  have hrt : resetTimeOf false st2 waId = T := by
    unfold resetTimeOf
    rw [hget]
    exact hparse
  unfold recentRows at hr
  have hmem := mem_sliceNeg hr
  have hq := (List.mem_filter.mp hmem).2
  rw [hrt] at hq
  exact qualifies_timestamp hq (Nat.pos_iff_ne_zero.mp hpos)

/-- C3 witness: after a reset at instant 100, the surviving row is the one
with timestamp 150. -/
theorem reset_monotonicity_witness :
    100 < (⟨150, "u", "user", "new", ""⟩ : Row).timestamp :=
  reset_monotonicity ⟨[⟨50, "u", "user", "old", ""⟩, ⟨150, "u", "user", "new", ""⟩], []⟩
    (resetConversation true false
      ⟨[⟨50, "u", "user", "old", ""⟩, ⟨150, "u", "user", "new", ""⟩], []⟩ "u" "100")
    "u" "100" 100 5 (by decide) (by decide) rfl
    ⟨150, "u", "user", "new", ""⟩ (by decide)

/-- C4 counterexample: at limit 0, `.slice(-limit)` is `.slice(0)` and returns
every qualifying turn, so the result is not bounded by the limit. -/
theorem recentTurns_bounded_counterexample :
    ¬((getRecentConversation true false false ⟨[⟨5, "u", "user", "hey", ""⟩], []⟩ "u" 0).length ≤ 0) := by
  decide

/-- C4 (amended): for every positive limit, `getRecentConversation` returns at
most `limit` entries, every selected row belongs to the requested user, the
selection preserves the sheet's chronological order, and an empty qualifying
set yields the empty sequence (not an error — the function is total).
At limit 0 the JS `slice(-0)` quirk returns all qualifying turns instead. -/
theorem recentTurns_bounded (cfg ioGS io : Bool) (st : SheetsState) (waId : String)
    (limit : Nat) (hl : 1 ≤ limit) :
    (getRecentConversation cfg ioGS io st waId limit).length ≤ limit
      ∧ (∀ r ∈ recentRows ioGS st waId limit, r.waId = waId)
      ∧ (List.Pairwise (fun a b => a.timestamp ≤ b.timestamp) st.messages →
          List.Pairwise (fun a b => a.timestamp ≤ b.timestamp) (recentRows ioGS st waId limit))
      ∧ (st.messages.filter (qualifies (resetTimeOf ioGS st waId) waId) = [] →
          getRecentConversation cfg ioGS io st waId limit = []) := by
  refine ⟨?_, ?_, ?_, ?_⟩
  · unfold getRecentConversation
    split
    · simp
    · split
      · simp
      · rw [List.length_map]
        exact sliceNeg_length_le _ hl
  · intro r hr
    unfold recentRows at hr
    exact qualifies_waId (List.mem_filter.mp (mem_sliceNeg hr)).2
  · intro hp
    unfold recentRows
    exact List.Pairwise.sublist
      ((sliceNeg_sublist _ limit).trans (List.filter_sublist st.messages)) hp
  · intro hnil
    unfold getRecentConversation recentRows
    rw [hnil, sliceNeg_nil]
    simp

/-- C4 witness: the fixed window of 12 at a concrete two-user store. -/
theorem recentTurns_bounded_witness :
    (getRecentConversation true false false
        ⟨[⟨1, "u", "user", "a", ""⟩, ⟨2, "v", "user", "b", ""⟩, ⟨3, "u", "assistant", "c", ""⟩], []⟩
        "u" 12).length ≤ 12 :=
  (recentTurns_bounded true false false
    ⟨[⟨1, "u", "user", "a", ""⟩, ⟨2, "v", "user", "b", ""⟩, ⟨3, "u", "assistant", "c", ""⟩], []⟩
    "u" 12 (by decide)).1

/-- C10 counterexample: at limit 0 with two qualifying turns (more than the
limit), the code returns both turns rather than the final 0 elements of the
qualifying sequence. -/
theorem recent_limit_counterexample :
    (recentRows false ⟨[⟨1, "v", "user", "a", ""⟩, ⟨2, "v", "assistant", "b", ""⟩], []⟩ "v" 0).length = 2
      ∧ recentRows false ⟨[⟨1, "v", "user", "a", ""⟩, ⟨2, "v", "assistant", "b", ""⟩], []⟩ "v" 0 ≠ [] := by
  decide

/-- C10 (amended): for every positive limit, when more than `limit` turns
qualify after the user/cutoff filter, the selection is exactly the final
`limit` elements of the chronological qualifying sequence — the limit is
applied after filtering, and exactly `limit` turns are returned. -/
theorem recent_limit_after_filter (ioGS : Bool) (st : SheetsState) (waId : String)
    (limit : Nat) (hl : 1 ≤ limit)
    (hgt : limit < (st.messages.filter (qualifies (resetTimeOf ioGS st waId) waId)).length) :
    recentRows ioGS st waId limit
        = (st.messages.filter (qualifies (resetTimeOf ioGS st waId) waId)).drop
            ((st.messages.filter (qualifies (resetTimeOf ioGS st waId) waId)).length - limit)
      ∧ (recentRows ioGS st waId limit).length = limit := by
  constructor
  · unfold recentRows sliceNeg
    rw [if_neg (by omega)]
  · unfold recentRows sliceNeg
    rw [if_neg (by omega), List.length_drop]
    omega

/-- C10 witness: three qualifying rows, limit 1 — the newest row survives. -/
theorem recent_limit_after_filter_witness :
    (recentRows false
        ⟨[⟨1, "u", "user", "a", ""⟩, ⟨2, "u", "assistant", "b", ""⟩, ⟨3, "u", "user", "c", ""⟩], []⟩
        "u" 1).length = 1 :=
  (recent_limit_after_filter false
    ⟨[⟨1, "u", "user", "a", ""⟩, ⟨2, "u", "assistant", "b", ""⟩, ⟨3, "u", "user", "c", ""⟩], []⟩
    "u" 1 (by decide) (by decide)).2

/-- C6: when the dedup check does not fire and any awaited step of the
pipeline (persist inbound, fetch history, read settings, generate, persist
reply) rejects, the orchestrator's catch branch runs (where the error is
logged), exactly one best-effort `sendMessage(number, fallbackText)` is
attempted, and `handleUserMessage` returns normally — it is a total function,
so no exception escapes to the webhook handler. -/
theorem pipeline_catches (env : OrchEnv) (st : SheetsState) (now : Nat)
    (number message : String) (msgId : Option String)
    (hded : (msgIdTruthy msgId && hasMessage env.cfg env.ioHasMessage st (msgId.getD "")) = false)
    (hraise : env.raiseAppendUser = true ∨ env.raiseHistory = true ∨ env.raiseSettings = true
      ∨ env.raiseGenerate = true ∨ env.raiseAppendReply = true) :
    (handleUserMessage env st now number message msgId).2.caught = true
      ∧ (handleUserMessage env st now number message msgId).2.sends
          = [⟨number, fallbackText, sendMessage env.sendEnv env.sendIoOk number fallbackText⟩] := by
  have hcond : ¬((msgIdTruthy msgId
      && hasMessage env.cfg env.ioHasMessage st (msgId.getD "")) = true) := by
    rw [hded]
    simp
  unfold handleUserMessage handleCore
  rw [if_neg hcond]
  cases hA : env.raiseAppendUser <;> cases hH : env.raiseHistory <;>
    cases hS : env.raiseSettings <;> cases hG : env.raiseGenerate <;>
    cases hR : env.raiseAppendReply <;>
    simp_all

/-- C6 witness: a store-append rejection on a concrete inbound message. -/
theorem pipeline_catches_witness :
    (handleUserMessage
        ⟨true, false, false, false, false, false, false, true, false, false, false, false,
          .throws, ⟨none, none, none⟩, false⟩
        ⟨[], []⟩ 2 "55501" "hello" none).2.caught = true
      ∧ (handleUserMessage
          ⟨true, false, false, false, false, false, false, true, false, false, false, false,
            .throws, ⟨none, none, none⟩, false⟩
          ⟨[], []⟩ 2 "55501" "hello" none).2.sends
        = [⟨"55501", fallbackText, .skippedEnv⟩] :=
  pipeline_catches
    ⟨true, false, false, false, false, false, false, true, false, false, false, false,
      .throws, ⟨none, none, none⟩, false⟩
    ⟨[], []⟩ 2 "55501" "hello" none (by decide) (Or.inl rfl)

end Chatbot
